import Mathlib

/-!
# Process and thread helpers: systemcalls.c and threading.c

A shallow embedding of the four functions of the repository

* `do_system`, `do_exec`, `do_exec_redirect` (examples/systemcalls/systemcalls.c)
* `threadfunc`, `start_thread_obtaining_mutex` (examples/threading/threading.c)

Every call into the operating system is a point where the environment decides
the result.  The functions are therefore written over an explicit record of the
results of those calls, and they report the calls they make, in order, next to
the way the process leaves the function.
-/

namespace Systemcalls

/-! ## Constants of the C library (stdlib.h, unistd.h, sys/wait.h on Linux) -/

/-- EXIT_FAILURE of stdlib.h. -/
def EXIT_FAILURE : Int := 1

/-- STDOUT_FILENO of unistd.h. -/
def STDOUT_FILENO : Int := 1

/-- WTERMSIG of sys/wait.h: `status & 0x7f`, the low seven bits. -/
def WTERMSIG (status : Int) : Int := status % 128

/-- WEXITSTATUS of sys/wait.h: `(status & 0xff00) >> 8`, bits 8 to 15. -/
def WEXITSTATUS (status : Int) : Int := (status / 256) % 256

/-- WIFEXITED of sys/wait.h: `WTERMSIG(status) == 0`. -/
def WIFEXITED (status : Int) : Bool := WTERMSIG status == 0

/-- Conversion of a small int to `signed char` (eight bits, two's complement). -/
def to_signed_char (x : Int) : Int := (x + 128) % 256 - 128

/-- WIFSIGNALED of sys/wait.h:
`((signed char) ((status & 0x7f) + 1) >> 1) > 0`. -/
def WIFSIGNALED (status : Int) : Bool := decide (0 < to_signed_char (status % 128 + 1) / 2)

/-- WIFSTOPPED of sys/wait.h: `(status & 0xff) == 0x7f`. -/
def WIFSTOPPED (status : Int) : Bool := status % 256 == 127

/-- W_EXITCODE of sys/wait.h: `(ret) << 8 | (sig)`, the status the kernel
reports for a process that called `_exit(ret)` (only the low eight bits of
`ret` are kept) or that was killed by signal `sig`. -/
def W_EXITCODE (ret sig : Int) : Int := (ret % 256) * 256 + sig

/-! ## Calls and outcomes -/

/-- A `char *`: `none` is the NULL pointer. -/
abbrev CharPtr := Option String

/-- The calls into the C library that the three functions make. -/
inductive Call where
  | system (cmd : String)
  | fork
  | printf (msg : String)
  | perror (msg : String)
  | open_ (path : String)
  | dup2 (oldfd newfd : Int)
  | close (fd : Int)
  | execv (path : CharPtr) (argv : List CharPtr)
  | waitpid (pid : Int)
  | exit_ (status : Int)
  deriving DecidableEq, Repr

/-- How a process leaves the function it called. -/
inductive Outcome where
  /-- the function returned this value to its caller -/
  | returned (b : Bool)
  /-- the process ended itself with `_exit(status)` -/
  | exited (status : Int)
  /-- `execv` succeeded: the process image was replaced -/
  | replaced
  deriving DecidableEq, Repr

/-- One process running one of the functions: the calls made, in order, and the
outcome.  The list of a child starts with the `fork` call it came out of. -/
structure Run where
  calls : List Call
  outcome : Outcome
  deriving DecidableEq, Repr

/-- What the environment answers to the calls one process makes. -/
structure Env where
  /-- return value of `fork()` in this process -/
  fork_ret : Int
  /-- return value of `open()` -/
  open_ret : Int
  /-- return value of `dup2()` -/
  dup2_ret : Int
  /-- whether `execv` replaces the image; otherwise it returns -1 -/
  execv_ok : Bool
  /-- the status `waitpid` stores; `none` when `waitpid` fails (returns -1) and
  stores nothing -/
  waitpid_status : Option Int
  /-- indeterminate initial value of the uninitialised local `int status` -/
  status_init : Int
  /-- indeterminate initial contents of the entries of `command[]` -/
  command_init : CharPtr
  deriving Repr

/-! ## do_system -/

/-- The function `do_system` (systemcalls.c lines 10 to 27); `system_ret` is the value
`system(cmd)` returns. -/
def do_system (cmd : String) (system_ret : Int) : Run :=
  let result := system_ret
  if result = -1 then
    ⟨[.system cmd, .perror "system() failed "], .returned false⟩
  else
    ⟨[.system cmd], .returned (WEXITSTATUS result == 0)⟩

/-! ## Argument marshalling -/

/-- The loop `for(i=0; i<count; i++) command[i] = va_arg(args, char *);`
started at index `i`.  The variable argument list is the list of the arguments
not yet read; reading one that was never passed has no defined behaviour and
gives `none`. -/
def marshal_loop (count : Nat) (i : Nat) (args : List String) (command : List CharPtr) :
    Option (List CharPtr) :=
  if i < count then
    match args with
    | [] => none
    | a :: rest => marshal_loop count (i + 1) rest (command.set i (some a))
  else
    some command
termination_by count - i

/-- Lines 45 to 53 (and 96 to 106): `char * command[count+1]`, the loop, then
`command[count] = NULL`.  The `int count` is a natural number here: with a
negative count the array would have a length of zero or less, which C does not
define. -/
def marshal (count : Nat) (args : List String) (command_init : CharPtr) :
    Option (List CharPtr) :=
  (marshal_loop count 0 args (List.replicate (count + 1) command_init)).map
    fun command => command.set count none

/-! ## do_exec and do_exec_redirect, as run by one process -/

/-- The function `do_exec` (systemcalls.c lines 43 to 87) in the process where
`fork()` returned `e.fork_ret`.  `va_end` has no effect that is observed.  The
closing `return true;` of line 86 follows an if/else chain every branch of
which has already left the function. -/
def do_exec (count : Nat) (args : List String) (e : Env) : Option Run :=
  match marshal count args e.command_init with
  | none => none
  | some command =>
    let pid := e.fork_ret
    if pid = -1 then
      some ⟨[.fork, .perror "fork() failed"], .returned false⟩
    else if pid = 0 then
      if e.execv_ok then
        some ⟨[.fork, .printf "child process \n", .execv (command.headD none) command],
          .replaced⟩
      else
        some ⟨[.fork, .printf "child process \n", .execv (command.headD none) command,
            .perror "execv() failed", .exit_ EXIT_FAILURE],
          .exited EXIT_FAILURE⟩
    else
      let status := match e.waitpid_status with
        | some s => s
        | none => e.status_init
      if WIFEXITED status then
        some ⟨[.fork, .waitpid pid], .returned (WEXITSTATUS status == 0)⟩
      else
        some ⟨[.fork, .waitpid pid], .returned false⟩

/-- The function `do_exec_redirect` (systemcalls.c lines 94 to 152) in the
process where `fork()` returned `e.fork_ret`. -/
def do_exec_redirect (outputfile : String) (count : Nat) (args : List String) (e : Env) :
    Option Run :=
  match marshal count args e.command_init with
  | none => none
  | some command =>
    let pid := e.fork_ret
    if pid = -1 then
      some ⟨[.fork, .perror "fork() failed"], .returned false⟩
    else if pid = 0 then
      let fd := e.open_ret
      if fd = -1 then
        some ⟨[.fork, .open_ outputfile, .perror "open() failed", .exit_ EXIT_FAILURE],
          .exited EXIT_FAILURE⟩
      else if e.dup2_ret = -1 then
        some ⟨[.fork, .open_ outputfile, .dup2 fd STDOUT_FILENO, .perror "dup2() failed",
            .close fd, .exit_ EXIT_FAILURE],
          .exited EXIT_FAILURE⟩
      else if e.execv_ok then
        some ⟨[.fork, .open_ outputfile, .dup2 fd STDOUT_FILENO, .close fd,
            .execv (command.headD none) command],
          .replaced⟩
      else
        some ⟨[.fork, .open_ outputfile, .dup2 fd STDOUT_FILENO, .close fd,
            .execv (command.headD none) command, .perror "execv() failed",
            .exit_ EXIT_FAILURE],
          .exited EXIT_FAILURE⟩
    else
      let status := match e.waitpid_status with
        | some s => s
        | none => e.status_init
      if WIFEXITED status then
        some ⟨[.fork, .waitpid pid], .returned (WEXITSTATUS status == 0)⟩
      else
        some ⟨[.fork, .waitpid pid], .returned false⟩

/-! ## The caller and the child it creates -/

/-- What `fork()` does for the caller: it fails, or it creates a child whose
process id, a positive number, it returns to the caller. -/
inductive ForkOutcome where
  | failed
  | created (pid_pred : Nat)
  deriving DecidableEq, Repr

/-- The value `fork()` returns to the caller. -/
def ForkOutcome.ret : ForkOutcome → Int
  | .failed => -1
  | .created k => (k : Int) + 1

/-- The outcomes the operating system decides during one call of an exec
function: for the caller and, when one is created, for the child. -/
structure World where
  fork : ForkOutcome
  /-- child: return value of `open()` -/
  open_ret : Int
  /-- child: return value of `dup2()` -/
  dup2_ret : Int
  /-- child: whether `execv` replaces the image -/
  execv_ok : Bool
  /-- wait status with which the program started by `execv` comes to its end -/
  prog_status : Int
  /-- caller: whether `waitpid` succeeds and so stores the status of the child -/
  waitpid_ok : Bool
  /-- caller: indeterminate initial value of `int status` -/
  status_init : Int
  /-- indeterminate initial contents of `command[]` -/
  command_init : CharPtr
  deriving Repr

/-- The calls of the caller and of the child, if there is one. -/
structure SysRun where
  parent : Run
  child : Option Run
  deriving DecidableEq, Repr

/-- The environment of the child: `fork()` returned 0 there. -/
def World.child_env (w : World) : Env :=
  { fork_ret := 0, open_ret := w.open_ret, dup2_ret := w.dup2_ret, execv_ok := w.execv_ok,
    waitpid_status := none, status_init := w.status_init, command_init := w.command_init }

/-- The environment of the caller, whose `waitpid`, when it succeeds, stores
`child_status`. -/
def World.parent_env (w : World) (child_status : Int) : Env :=
  { fork_ret := w.fork.ret, open_ret := w.open_ret, dup2_ret := w.dup2_ret,
    execv_ok := w.execv_ok,
    waitpid_status := if w.waitpid_ok then some child_status else none,
    status_init := w.status_init, command_init := w.command_init }

/-- The wait status of a child that left the function with outcome `o`: after
`_exit(c)` it is `W_EXITCODE(c, 0)`; once the image is replaced (or if the
child went on running the code of the caller) the status is the one with which
that program ends. -/
def termination_status (w : World) : Outcome → Int
  | .exited c => W_EXITCODE c 0
  | .replaced => w.prog_status
  | .returned _ => w.prog_status

/-- One call of the function `f` by the caller, together with the child that `fork`
creates: the child runs `f` with `fork() = 0`, and the caller waits for it. -/
def system_run (f : Env → Option Run) (w : World) : Option SysRun :=
  match w.fork with
  | .failed => (f (w.parent_env 0)).map fun p => ⟨p, none⟩
  | .created _ =>
    match f w.child_env with
    | none => none
    | some c => (f (w.parent_env (termination_status w c.outcome))).map fun p => ⟨p, some c⟩

/-- Whether a call is a call of `execv`. -/
def Call.is_execv : Call → Bool
  | .execv _ _ => true
  | _ => false

/-- The execv calls among the calls of a process, in order. -/
def execv_calls (r : Run) : List Call := r.calls.filter Call.is_execv

/-! ## Abbreviations used by the statements about the parent branch -/

/-- The status the caller examines after `waitpid`. -/
def Env.status (e : Env) : Int :=
  match e.waitpid_status with
  | some s => s
  | none => e.status_init

/-- The value the parent branch returns for the status it examines. -/
def verdict (status : Int) : Bool := WIFEXITED status && WEXITSTATUS status == 0

end Systemcalls

namespace Threading

/-! ## Machine arithmetic -/

/-- Result of an `int` operation whose mathematical value is `x`, on a machine
with a 32-bit `int` in two-complement form, where signed overflow wraps around. -/
def wrap_int32 (x : Int) : Int := (x + 2147483648) % 4294967296 - 2147483648

/-- Conversion of an `int` to `useconds_t`, the 32-bit unsigned parameter type
of `usleep`. -/
def to_useconds (x : Int) : Int := x % 4294967296

/-- The argument `ms * 1000` of the two `usleep` calls (threading.c lines 16
and 26): an `int` product, converted to `useconds_t` by the call. -/
def usleep_arg (ms : Int) : Int := to_useconds (wrap_int32 (ms * 1000))

/-! ## Data -/

/-- A pointer: an address, 0 being NULL. -/
abbrev Ptr := Nat

/-- Modelled from the spec: `struct thread_data` is declared in threading.h,
which is not among the sources.  The fields are those of the WorkerTask of the
spec (the shared lock reference, two delay durations, a completion flag) under
the names threading.c uses for them; the two delays are `int`, the type of the
parameters of `start_thread_obtaining_mutex` they are assigned from. -/
structure thread_data where
  mutex : Ptr
  wait_to_obtain_ms : Int
  wait_to_release_ms : Int
  thread_complete_success : Bool
  deriving DecidableEq, Repr

/-- The memory holding the task records, by address. -/
abbrev Mem := Ptr → thread_data

/-- Store `d` at address `p`. -/
def Mem.write (m : Mem) (p : Ptr) (d : thread_data) : Mem :=
  fun q => if q = p then d else m q

/-- The calls the two functions make. -/
inductive Call where
  | usleep (usec : Int)
  | pthread_mutex_lock (mutex : Ptr)
  | pthread_mutex_unlock (mutex : Ptr)
  | error_log (msg : String)
  | malloc
  | pthread_create (arg : Ptr)
  | free (p : Ptr)
  deriving DecidableEq, Repr

/-- A run of `threadfunc`: the calls made, the memory left, the pointer returned. -/
structure ThreadRun where
  calls : List Call
  mem : Mem
  ret : Ptr

/-- The function `threadfunc` (threading.c lines 11 to 38).  `lock_ret` and
`unlock_ret` are the values `pthread_mutex_lock` and `pthread_mutex_unlock`
return; the second is consulted only if the call is reached. -/
def threadfunc (thread_param : Ptr) (m : Mem) (lock_ret unlock_ret : Int) : ThreadRun :=
  let thread_func_args := thread_param
  let d := m thread_func_args
  if lock_ret ≠ 0 then
    ⟨[.usleep (usleep_arg d.wait_to_obtain_ms), .pthread_mutex_lock d.mutex,
        .error_log "Failed to lock mutex"],
      m.write thread_func_args { d with thread_complete_success := false },
      thread_param⟩
  else if unlock_ret ≠ 0 then
    ⟨[.usleep (usleep_arg d.wait_to_obtain_ms), .pthread_mutex_lock d.mutex,
        .usleep (usleep_arg d.wait_to_release_ms), .pthread_mutex_unlock d.mutex,
        .error_log "Failed to unlock mutex"],
      m.write thread_func_args { d with thread_complete_success := false },
      thread_param⟩
  else
    ⟨[.usleep (usleep_arg d.wait_to_obtain_ms), .pthread_mutex_lock d.mutex,
        .usleep (usleep_arg d.wait_to_release_ms), .pthread_mutex_unlock d.mutex],
      m.write thread_func_args { d with thread_complete_success := true },
      thread_param⟩

/-- What a joiner reads: the completion flag of the record `threadfunc` returned. -/
def ThreadRun.joined_flag (r : ThreadRun) : Bool := (r.mem r.ret).thread_complete_success

/-- A run of `start_thread_obtaining_mutex`: the calls made, the memory left,
the value returned. -/
structure StartRun where
  calls : List Call
  mem : Mem
  ret : Bool

/-- The function `start_thread_obtaining_mutex` (threading.c lines 41 to 64).
`malloc_ret` is the pointer `malloc` returns (0 for NULL) and `create_ret` the
value `pthread_create` returns, consulted only if the call is reached. -/
def start_thread_obtaining_mutex (m : Mem) (malloc_ret : Ptr) (create_ret : Int)
    (mutex : Ptr) (wait_to_obtain_ms wait_to_release_ms : Int) : StartRun :=
  let thread_data_ptr := malloc_ret
  if thread_data_ptr = 0 then
    ⟨[.malloc, .error_log "Failed to allocate memory for thread_data"], m, false⟩
  else
    let m1 := m.write thread_data_ptr
      { mutex := mutex, wait_to_obtain_ms := wait_to_obtain_ms,
        wait_to_release_ms := wait_to_release_ms, thread_complete_success := false }
    if create_ret ≠ 0 then
      ⟨[.malloc, .pthread_create thread_data_ptr, .error_log "Failed to create thread",
          .free thread_data_ptr], m1, false⟩
    else
      ⟨[.malloc, .pthread_create thread_data_ptr], m1, true⟩

/-- Whether a call is a call of `pthread_create`. -/
def Call.is_pthread_create : Call → Bool
  | .pthread_create _ => true
  | _ => false

end Threading

/-! # Theorems -/

namespace Systemcalls

/-! ## Argument marshalling -/

/-- Writing entry `i` and keeping the first `i + 1` entries. -/
theorem take_succ_set {α : Type} (l : List α) (i : Nat) (x : α) (h : i < l.length) :
    (l.set i x).take (i + 1) = l.take i ++ [x] := by
  induction l generalizing i with
  | nil => simp at h
  | cons y ys ih =>
    cases i with
    | zero => simp
    | succ j =>
      simp only [List.set_cons_succ, List.take_succ_cons, List.cons_append, List.cons.injEq,
        true_and]
      exact ih j (by simpa using h)

/-- Writing entry `i` leaves the entries from `n > i` on untouched. -/
theorem drop_set_of_lt {α : Type} (l : List α) (i n : Nat) (x : α) (h : i < n) :
    (l.set i x).drop n = l.drop n := by
  induction l generalizing i n with
  | nil => simp
  | cons y ys ih =>
    cases n with
    | zero => omega
    | succ k =>
      cases i with
      | zero => simp
      | succ j =>
        simp only [List.set_cons_succ, List.drop_succ_cons]
        exact ih j k (by omega)

/-- The loop started at `i` overwrites entries `i` to `count - 1` with the next
`count - i` arguments, in order. -/
theorem marshal_loop_eq (count : Nat) :
    ∀ (n i : Nat) (args : List String) (command : List CharPtr),
      n = count - i → i ≤ count → count < command.length → count - i ≤ args.length →
      marshal_loop count i args command
        = some (command.take i ++ (args.take (count - i)).map some ++ command.drop count) := by
  intro n
  induction n with
  | zero =>
    intro i args command hn hi hc ha
    have hic : i = count := by omega
    subst hic
    rw [marshal_loop.eq_def]
    simp
  | succ k ih =>
    intro i args command hn hi hc ha
    have hlt : i < count := by omega
    rw [marshal_loop.eq_def, if_pos hlt]
    cases args with
    | nil => simp at ha; omega
    | cons a rest =>
      simp only
      rw [ih (i + 1) rest (command.set i (some a)) (by omega) (by omega) (by simpa using hc)
        (by simp at ha; omega)]
      rw [take_succ_set command i (some a) (by omega), drop_set_of_lt command i count _ hlt]
      have hci : count - i = (count - (i + 1)) + 1 := by omega
      rw [hci, List.take_succ_cons]
      simp

/-- With at least `count` arguments supplied, `command` ends up as the first
`count` arguments followed by NULL, whatever the array held before. -/
theorem marshal_eq (count : Nat) (args : List String) (init : CharPtr)
    (h : count ≤ args.length) :
    marshal count args init = some ((args.take count).map some ++ [none]) := by
  unfold marshal
  rw [marshal_loop_eq count count 0 args _ (by omega) (by omega) (by simp) (by omega)]
  simp only [List.take_zero, List.nil_append, Nat.sub_zero, Option.map_some', Option.some.injEq]
  have hd : (List.replicate (count + 1) init).drop count = [init] := by
    simp [List.drop_replicate]
  rw [hd]
  have hl : ((args.take count).map some : List CharPtr).length = count := by
    simp [List.length_take]; omega
  rw [List.set_append_right _ _ (by omega), hl]
  simp

/-! ## The branches of do_exec and do_exec_redirect -/

/-- Function do_exec when fork fails. -/
theorem do_exec_fork_failed (count : Nat) (args : List String) (e : Env)
    (h : count ≤ args.length) (hp : e.fork_ret = -1) :
    do_exec count args e = some ⟨[.fork, .perror "fork() failed"], .returned false⟩ := by
  simp [do_exec, marshal_eq count args e.command_init h, hp]

/-- Function do_exec in the caller after a successful fork. -/
theorem do_exec_parent (count : Nat) (args : List String) (e : Env)
    (h : count ≤ args.length) (h1 : e.fork_ret ≠ -1) (h0 : e.fork_ret ≠ 0) :
    do_exec count args e
      = some ⟨[.fork, .waitpid e.fork_ret], .returned (verdict e.status)⟩ := by
  simp only [do_exec, marshal_eq count args e.command_init h, if_neg h1, if_neg h0]
  unfold verdict Env.status
  cases hs : e.waitpid_status <;> simp only [] <;> split <;> simp_all

/-- Function do_exec in the child. -/
theorem do_exec_child (count : Nat) (args : List String) (e : Env)
    (h : count ≤ args.length) (h0 : e.fork_ret = 0) :
    do_exec count args e =
      some (if e.execv_ok then
        ⟨[.fork, .printf "child process \n",
            .execv (((args.take count).map some ++ [none]).headD none)
              ((args.take count).map some ++ [none])], .replaced⟩
      else
        ⟨[.fork, .printf "child process \n",
            .execv (((args.take count).map some ++ [none]).headD none)
              ((args.take count).map some ++ [none]),
            .perror "execv() failed", .exit_ EXIT_FAILURE], .exited EXIT_FAILURE⟩) := by
  simp only [do_exec, marshal_eq count args e.command_init h, h0]
  rw [if_neg (by decide)]
  cases e.execv_ok <;> simp

/-- Function do_exec_redirect when fork fails. -/
theorem do_exec_redirect_fork_failed (outputfile : String) (count : Nat) (args : List String)
    (e : Env) (h : count ≤ args.length) (hp : e.fork_ret = -1) :
    do_exec_redirect outputfile count args e
      = some ⟨[.fork, .perror "fork() failed"], .returned false⟩ := by
  simp [do_exec_redirect, marshal_eq count args e.command_init h, hp]

/-- Function do_exec_redirect in the caller after a successful fork. -/
theorem do_exec_redirect_parent (outputfile : String) (count : Nat) (args : List String)
    (e : Env) (h : count ≤ args.length) (h1 : e.fork_ret ≠ -1) (h0 : e.fork_ret ≠ 0) :
    do_exec_redirect outputfile count args e
      = some ⟨[.fork, .waitpid e.fork_ret], .returned (verdict e.status)⟩ := by
  simp only [do_exec_redirect, marshal_eq count args e.command_init h, if_neg h1, if_neg h0]
  unfold verdict Env.status
  cases hs : e.waitpid_status <;> simp only [] <;> split <;> simp_all

/-- Function do_exec_redirect in the child when open fails. -/
theorem do_exec_redirect_child_open (outputfile : String) (count : Nat) (args : List String)
    (e : Env) (h : count ≤ args.length) (h0 : e.fork_ret = 0) (ho : e.open_ret = -1) :
    do_exec_redirect outputfile count args e
      = some ⟨[.fork, .open_ outputfile, .perror "open() failed", .exit_ EXIT_FAILURE],
          .exited EXIT_FAILURE⟩ := by
  simp [do_exec_redirect, marshal_eq count args e.command_init h, h0, ho]

/-- Function do_exec_redirect in the child when open succeeds and dup2 fails. -/
theorem do_exec_redirect_child_dup2 (outputfile : String) (count : Nat) (args : List String)
    (e : Env) (h : count ≤ args.length) (h0 : e.fork_ret = 0) (ho : e.open_ret ≠ -1)
    (hd : e.dup2_ret = -1) :
    do_exec_redirect outputfile count args e
      = some ⟨[.fork, .open_ outputfile, .dup2 e.open_ret STDOUT_FILENO,
            .perror "dup2() failed", .close e.open_ret, .exit_ EXIT_FAILURE],
          .exited EXIT_FAILURE⟩ := by
  simp [do_exec_redirect, marshal_eq count args e.command_init h, h0, ho, hd]

/-- Function do_exec_redirect in the child once open and dup2 have succeeded. -/
theorem do_exec_redirect_child_exec (outputfile : String) (count : Nat) (args : List String)
    (e : Env) (h : count ≤ args.length) (h0 : e.fork_ret = 0) (ho : e.open_ret ≠ -1)
    (hd : e.dup2_ret ≠ -1) :
    do_exec_redirect outputfile count args e =
      some (if e.execv_ok then
        ⟨[.fork, .open_ outputfile, .dup2 e.open_ret STDOUT_FILENO, .close e.open_ret,
            .execv (((args.take count).map some ++ [none]).headD none)
              ((args.take count).map some ++ [none])], .replaced⟩
      else
        ⟨[.fork, .open_ outputfile, .dup2 e.open_ret STDOUT_FILENO, .close e.open_ret,
            .execv (((args.take count).map some ++ [none]).headD none)
              ((args.take count).map some ++ [none]),
            .perror "execv() failed", .exit_ EXIT_FAILURE], .exited EXIT_FAILURE⟩) := by
  simp only [do_exec_redirect, marshal_eq count args e.command_init h, h0, ho, hd]
  rw [if_neg (by decide)]
  cases e.execv_ok <;> simp

/-- The value fork returns to the caller after creating a child is neither -1 nor 0. -/
theorem ForkOutcome.ret_created (k : Nat) :
    (ForkOutcome.created k).ret ≠ -1 ∧ (ForkOutcome.created k).ret ≠ 0 := by
  simp only [ForkOutcome.ret]
  constructor <;> omega

/-- A status with a termination signal or a stop mark is not a normal exit. -/
theorem not_exited_of_signaled_or_stopped (st : Int)
    (h : WIFSIGNALED st = true ∨ WIFSTOPPED st = true) : WIFEXITED st = false := by
  simp only [WIFSIGNALED, WIFSTOPPED, WIFEXITED, WTERMSIG, to_signed_char, decide_eq_true_eq,
    beq_iff_eq, beq_eq_false_iff_ne, ne_eq] at *
  omega

/-- The exit code read back from the status of a normal exit. -/
theorem exit_code_roundtrip (code : Int) :
    WIFEXITED (W_EXITCODE code 0) = true ∧ WEXITSTATUS (W_EXITCODE code 0) = code % 256 := by
  simp only [WIFEXITED, WTERMSIG, WEXITSTATUS, W_EXITCODE, beq_iff_eq]
  constructor <;> omega

/-- The caller of do_exec together with the child, after a successful fork. -/
theorem system_run_do_exec (count : Nat) (args : List String) (w : World) (k : Nat)
    (h : count ≤ args.length) (hf : w.fork = .created k) :
    ∃ c, do_exec count args w.child_env = some c ∧
      system_run (do_exec count args) w
        = some ⟨⟨[.fork, .waitpid ((k : Int) + 1)],
            .returned (verdict (w.parent_env (termination_status w c.outcome)).status)⟩,
          some c⟩ := by
  have hc := do_exec_child count args w.child_env h rfl
  refine ⟨_, hc, ?_⟩
  have hr := ForkOutcome.ret_created k
  simp only [system_run, hf, hc]
  rw [do_exec_parent count args _ h (by simpa [World.parent_env, hf] using hr.1)
    (by simpa [World.parent_env, hf] using hr.2)]
  simp [World.parent_env, hf, ForkOutcome.ret]

/-- The caller of do_exec_redirect together with the child, after a successful fork. -/
theorem system_run_do_exec_redirect (outputfile : String) (count : Nat) (args : List String)
    (w : World) (k : Nat) (h : count ≤ args.length) (hf : w.fork = .created k) :
    ∃ c, do_exec_redirect outputfile count args w.child_env = some c ∧
      system_run (do_exec_redirect outputfile count args) w
        = some ⟨⟨[.fork, .waitpid ((k : Int) + 1)],
            .returned (verdict (w.parent_env (termination_status w c.outcome)).status)⟩,
          some c⟩ := by
  have hr := ForkOutcome.ret_created k
  have key : ∀ c, do_exec_redirect outputfile count args w.child_env = some c →
      system_run (do_exec_redirect outputfile count args) w
        = some ⟨⟨[.fork, .waitpid ((k : Int) + 1)],
            .returned (verdict (w.parent_env (termination_status w c.outcome)).status)⟩,
          some c⟩ := by
    intro c hc
    simp only [system_run, hf, hc]
    rw [do_exec_redirect_parent outputfile count args _ h
      (by simpa [World.parent_env, hf] using hr.1) (by simpa [World.parent_env, hf] using hr.2)]
    simp [World.parent_env, hf, ForkOutcome.ret]
  by_cases ho : w.child_env.open_ret = -1
  · exact ⟨_, do_exec_redirect_child_open outputfile count args _ h rfl ho,
      key _ (do_exec_redirect_child_open outputfile count args _ h rfl ho)⟩
  · by_cases hd : w.child_env.dup2_ret = -1
    · exact ⟨_, do_exec_redirect_child_dup2 outputfile count args _ h rfl ho hd,
        key _ (do_exec_redirect_child_dup2 outputfile count args _ h rfl ho hd)⟩
    · exact ⟨_, do_exec_redirect_child_exec outputfile count args _ h rfl ho hd,
        key _ (do_exec_redirect_child_exec outputfile count args _ h rfl ho hd)⟩

/-- The verdict of the caller on a child that ended with `_exit(EXIT_FAILURE)`,
when waitpid stores the status of the child. -/
theorem verdict_exit_failure (w : World) (hw : w.waitpid_ok = true) :
    verdict (w.parent_env (termination_status w (.exited EXIT_FAILURE))).status = false := by
  simp only [World.parent_env, Env.status, hw, if_true, termination_status]
  decide

/-- The status of a child that ended with `_exit(EXIT_FAILURE)` is a normal exit
with code EXIT_FAILURE. -/
theorem exit_failure_status (w : World) :
    WIFEXITED (termination_status w (.exited EXIT_FAILURE)) = true ∧
      WEXITSTATUS (termination_status w (.exited EXIT_FAILURE)) = EXIT_FAILURE := by
  simp only [termination_status]
  decide

/-! ## Claims on systemcalls.c -/

/-- C1: in the caller, for every outcome of fork and every wait status `st`
that waitpid reports, do_exec returns, and it returns true if and only if fork
succeeded and `st` denotes a normal exit (WIFEXITED) with exit code 0.  It
returns false when fork fails, when the exit code is any value in 1..255, and
when `st` denotes termination by a signal or a stopped child. -/
theorem do_exec_true_iff (count : Nat) (args : List String) (e : Env) (fo : ForkOutcome)
    (st : Int) (hargs : count ≤ args.length) :
    ∃ calls b,
      do_exec count args { e with fork_ret := fo.ret, waitpid_status := some st }
        = some ⟨calls, .returned b⟩ ∧
      (b = true ↔ (fo ≠ .failed ∧ WIFEXITED st = true ∧ WEXITSTATUS st = 0)) ∧
      (fo = .failed → b = false) ∧
      (1 ≤ WEXITSTATUS st → b = false) ∧
      (∀ code : Int, 1 ≤ code → code ≤ 255 → st = W_EXITCODE code 0 → b = false) ∧
      (WIFSIGNALED st = true → b = false) ∧
      (WIFSTOPPED st = true → b = false) := by
  cases fo with
  | failed =>
    refine ⟨_, false, do_exec_fork_failed count args _ hargs rfl, ?_⟩
    simp
  | created k =>
    have hr := ForkOutcome.ret_created k
    refine ⟨_, verdict st, do_exec_parent count args _ hargs hr.1 hr.2, ?_, ?_, ?_, ?_, ?_, ?_⟩
    · simp [verdict]
    · simp
    · intro h1
      simp only [verdict, Bool.and_eq_false_iff, beq_eq_false_iff_ne, ne_eq]
      right
      omega
    · intro code h1 h2 hst
      have hrt := exit_code_roundtrip code
      simp only [verdict, Bool.and_eq_false_iff, beq_eq_false_iff_ne, ne_eq, hst, hrt.2]
      right
      omega
    · intro hsig
      simp [verdict, not_exited_of_signaled_or_stopped st (Or.inl hsig)]
    · intro hstop
      simp [verdict, not_exited_of_signaled_or_stopped st (Or.inr hstop)]

/-- Witness for C1: `/bin/false` exits with code 1, status 256, and do_exec returns false. -/
theorem do_exec_true_iff_witness :
    ∃ calls b,
      do_exec 1 ["/bin/false"]
          { (⟨0, 0, 0, true, none, 0, none⟩ : Env) with
            fork_ret := (ForkOutcome.created 41).ret, waitpid_status := some 256 }
        = some ⟨calls, .returned b⟩ ∧
      (b = true ↔ (ForkOutcome.created 41 ≠ .failed ∧ WIFEXITED 256 = true
        ∧ WEXITSTATUS 256 = 0)) ∧
      (ForkOutcome.created 41 = .failed → b = false) ∧
      (1 ≤ WEXITSTATUS 256 → b = false) ∧
      (∀ code : Int, 1 ≤ code → code ≤ 255 → (256 : Int) = W_EXITCODE code 0 → b = false) ∧
      (WIFSIGNALED 256 = true → b = false) ∧
      (WIFSTOPPED 256 = true → b = false) :=
  do_exec_true_iff 1 ["/bin/false"] ⟨0, 0, 0, true, none, 0, none⟩ (.created 41) 256
    (by decide)

/-- C2 (fails on the code): when the shell run by system() is killed by signal
9, system() returns the status 9, which is not -1 and denotes termination by a
signal, not a normal exit; do_system still returns true, because it reads
WEXITSTATUS without consulting WIFEXITED. -/
theorem do_system_true_on_signal :
    do_system "kill -9 $$" 9 = ⟨[.system "kill -9 $$"], .returned true⟩ ∧
      WIFSIGNALED 9 = true ∧ WTERMSIG 9 = 9 ∧ WIFEXITED 9 = false := by
  decide

/-- What do_system computes, for every value system() returns: true exactly
when the value is not -1 and its exit-code bits are zero. -/
theorem do_system_outcome (cmd : String) (r : Int) :
    (do_system cmd r).outcome = .returned (decide (r ≠ -1) && WEXITSTATUS r == 0) := by
  unfold do_system
  by_cases h : r = -1 <;> simp [h]

/-- The child side of a failed redirection: when fork succeeds and open() fails
or dup2() fails, the child of do_exec_redirect makes no execv call and ends
with `_exit(EXIT_FAILURE)`, a non-zero status; if the waitpid of the caller
stores that status, the caller returns false. -/
theorem redirect_failure_child_side (outputfile : String) (count : Nat)
    (args : List String) (w : World) (k : Nat) (hargs : count ≤ args.length)
    (hfork : w.fork = .created k) (hfail : w.open_ret = -1 ∨ w.dup2_ret = -1) :
    ∃ p c, system_run (do_exec_redirect outputfile count args) w = some ⟨p, some c⟩ ∧
      (∀ call ∈ c.calls, call.is_execv = false) ∧
      c.outcome = .exited EXIT_FAILURE ∧ EXIT_FAILURE ≠ 0 ∧
      WEXITSTATUS (termination_status w c.outcome) ≠ 0 ∧
      (w.waitpid_ok = true → p.outcome = .returned false) := by
  obtain ⟨c, hc, hrun⟩ := system_run_do_exec_redirect outputfile count args w k hargs hfork
  have hcc : (∀ call ∈ c.calls, call.is_execv = false) ∧ c.outcome = .exited EXIT_FAILURE := by
    by_cases ho : w.open_ret = -1
    · rw [do_exec_redirect_child_open outputfile count args _ hargs rfl ho] at hc
      cases hc
      simp [Call.is_execv]
    · have hd : w.dup2_ret = -1 := by tauto
      rw [do_exec_redirect_child_dup2 outputfile count args _ hargs rfl ho hd] at hc
      cases hc
      simp [Call.is_execv]
  refine ⟨_, c, hrun, hcc.1, hcc.2, by decide, ?_, ?_⟩
  · rw [hcc.2, (exit_failure_status w).2]
    decide
  · intro hw
    simp only [hcc.2, verdict_exit_failure w hw]

/-- C3 (fails on the code): fork succeeds and creates child 42, open() of the
output file fails, and the child makes no execv call and ends with
`_exit(EXIT_FAILURE)`; but waitpid fails in the caller and stores nothing, the
uninitialised `status` happens to hold 0, and do_exec_redirect, which does not
test what waitpid returns, returns true. -/
theorem do_exec_redirect_true_when_waitpid_fails :
    system_run (do_exec_redirect "/nonexistent/out" 2 ["/bin/echo", "hello"])
        ⟨.created 41, -1, 0, true, 0, false, 0, none⟩
      = some ⟨⟨[.fork, .waitpid 42], .returned true⟩,
          some ⟨[.fork, .open_ "/nonexistent/out", .perror "open() failed",
              .exit_ EXIT_FAILURE], .exited EXIT_FAILURE⟩⟩ ∧
      EXIT_FAILURE ≠ 0 := by
  obtain ⟨c, hc, hrun⟩ := system_run_do_exec_redirect "/nonexistent/out" 2
    ["/bin/echo", "hello"] ⟨.created 41, -1, 0, true, 0, false, 0, none⟩ 41 (by decide) rfl
  rw [do_exec_redirect_child_open "/nonexistent/out" 2 ["/bin/echo", "hello"] _ (by decide)
    rfl rfl] at hc
  cases hc
  rw [hrun]
  decide

/-- C4: in do_exec, and in do_exec_redirect once open() and dup2() have
succeeded, when fork succeeds and execv fails, the child has called execv, does
not return to the caller of the function but ends with `_exit(EXIT_FAILURE)`,
which is a normal exit with a non-zero code, and the caller, observing that
status through waitpid, returns false. -/
theorem exec_failure_child_exits (outputfile : String) (count : Nat) (args : List String)
    (w : World) (k : Nat) (hargs : count ≤ args.length) (hfork : w.fork = .created k)
    (hexec : w.execv_ok = false) :
    (∃ p c, system_run (do_exec count args) w = some ⟨p, some c⟩ ∧
      (∃ call ∈ c.calls, call.is_execv = true) ∧
      c.outcome = .exited EXIT_FAILURE ∧
      WIFEXITED (termination_status w c.outcome) = true ∧
      WEXITSTATUS (termination_status w c.outcome) = EXIT_FAILURE ∧ EXIT_FAILURE ≠ 0 ∧
      (w.waitpid_ok = true → p.outcome = .returned false)) ∧
    (w.open_ret ≠ -1 → w.dup2_ret ≠ -1 →
      ∃ p c, system_run (do_exec_redirect outputfile count args) w = some ⟨p, some c⟩ ∧
        (∃ call ∈ c.calls, call.is_execv = true) ∧
        c.outcome = .exited EXIT_FAILURE ∧
        WIFEXITED (termination_status w c.outcome) = true ∧
        WEXITSTATUS (termination_status w c.outcome) = EXIT_FAILURE ∧ EXIT_FAILURE ≠ 0 ∧
        (w.waitpid_ok = true → p.outcome = .returned false)) := by
  have he : w.child_env.execv_ok = false := hexec
  constructor
  · obtain ⟨c, hc, hrun⟩ := system_run_do_exec count args w k hargs hfork
    rw [do_exec_child count args _ hargs rfl, he] at hc
    simp only [Bool.false_eq_true, if_false, Option.some.injEq] at hc
    subst hc
    refine ⟨_, _, hrun, ?_, rfl, (exit_failure_status w).1, (exit_failure_status w).2,
      by decide, ?_⟩
    · simp [Call.is_execv]
    · intro hw
      simp only [verdict_exit_failure w hw]
  · intro ho hd
    obtain ⟨c, hc, hrun⟩ := system_run_do_exec_redirect outputfile count args w k hargs hfork
    rw [do_exec_redirect_child_exec outputfile count args _ hargs rfl ho hd, he] at hc
    simp only [Bool.false_eq_true, if_false, Option.some.injEq] at hc
    subst hc
    refine ⟨_, _, hrun, ?_, rfl, (exit_failure_status w).1, (exit_failure_status w).2,
      by decide, ?_⟩
    · simp [Call.is_execv]
    · intro hw
      simp only [verdict_exit_failure w hw]

/-- Witness for C4: a path that names no executable. -/
theorem exec_failure_child_exits_witness :
    (∃ p c, system_run (do_exec 1 ["/no/such/program"])
        ⟨.created 41, 3, 1, false, 0, true, 0, none⟩ = some ⟨p, some c⟩ ∧
      p.outcome = .returned false ∧ c.outcome = .exited EXIT_FAILURE) ∧
    (∃ p c, system_run (do_exec_redirect "/tmp/out.txt" 1 ["/no/such/program"])
        ⟨.created 41, 3, 1, false, 0, true, 0, none⟩ = some ⟨p, some c⟩ ∧
      p.outcome = .returned false ∧ c.outcome = .exited EXIT_FAILURE) := by
  have h := exec_failure_child_exits "/tmp/out.txt" 1 ["/no/such/program"]
    ⟨.created 41, 3, 1, false, 0, true, 0, none⟩ 41 (by decide) rfl rfl
  obtain ⟨⟨p, c, hr, -, hc, -, -, -, hp⟩, h2⟩ := h
  obtain ⟨p2, c2, hr2, -, hc2, -, -, -, hp2⟩ := h2 (by decide) (by decide)
  exact ⟨⟨p, c, hr, hp rfl, hc⟩, ⟨p2, c2, hr2, hp2 rfl, hc2⟩⟩

/-- C5 (fails on the code): fork succeeds and returns 1234, waitpid fails and
stores nothing, and the uninitialised `status` happens to hold 0; do_exec
examines that value and returns true. -/
theorem do_exec_true_when_waitpid_fails :
    do_exec 1 ["/bin/false"]
        { fork_ret := 1234, open_ret := 0, dup2_ret := 0, execv_ok := true,
          waitpid_status := none, status_init := 0, command_init := none }
      = some ⟨[.fork, .waitpid 1234], .returned true⟩ := by
  rw [do_exec_parent 1 ["/bin/false"] _ (by decide) (by decide) (by decide)]
  decide

/-- C8: for every argument list and every outcome of fork, execv and waitpid,
if open() and dup2() both succeed in the child, then do_exec_redirect and
do_exec both complete, the caller gets the same result from both, and the
child makes the same execv call and ends the same way in both. -/
theorem do_exec_redirect_refines_do_exec (outputfile : String) (count : Nat)
    (args : List String) (w : World) (hargs : count ≤ args.length)
    (hopen : w.open_ret ≠ -1) (hdup : w.dup2_ret ≠ -1) :
    ∃ r r', system_run (do_exec_redirect outputfile count args) w = some r ∧
      system_run (do_exec count args) w = some r' ∧
      r.parent = r'.parent ∧
      r.child.map execv_calls = r'.child.map execv_calls ∧
      r.child.map Run.outcome = r'.child.map Run.outcome := by
  cases hf : w.fork with
  | failed =>
    have hp : (w.parent_env 0).fork_ret = -1 := by simp [World.parent_env, hf, ForkOutcome.ret]
    have h1 : system_run (do_exec_redirect outputfile count args) w
        = some ⟨⟨[.fork, .perror "fork() failed"], .returned false⟩, none⟩ := by
      simp only [system_run, hf]
      rw [do_exec_redirect_fork_failed outputfile count args _ hargs hp]
      rfl
    have h2 : system_run (do_exec count args) w
        = some ⟨⟨[.fork, .perror "fork() failed"], .returned false⟩, none⟩ := by
      simp only [system_run, hf]
      rw [do_exec_fork_failed count args _ hargs hp]
      rfl
    exact ⟨_, _, h1, h2, rfl, rfl, rfl⟩
  | created k =>
    obtain ⟨c, hc, hrun⟩ := system_run_do_exec_redirect outputfile count args w k hargs hf
    obtain ⟨c', hc', hrun'⟩ := system_run_do_exec count args w k hargs hf
    rw [do_exec_redirect_child_exec outputfile count args _ hargs rfl hopen hdup] at hc
    rw [do_exec_child count args _ hargs rfl] at hc'
    refine ⟨_, _, hrun, hrun', ?_⟩
    cases he : w.child_env.execv_ok <;> rw [he] at hc hc' <;>
      simp only [Bool.false_eq_true, if_false, if_true, Option.some.injEq] at hc hc' <;>
      subst hc <;> subst hc' <;>
      simp [execv_calls, Call.is_execv]

/-- Witness for C8: `/bin/echo hello`, redirected to a file that can be opened. -/
theorem do_exec_redirect_refines_do_exec_witness :
    ∃ r r', system_run (do_exec_redirect "/tmp/out.txt" 2 ["/bin/echo", "hello"])
        ⟨.created 41, 3, 1, true, 0, true, 0, none⟩ = some r ∧
      system_run (do_exec 2 ["/bin/echo", "hello"])
        ⟨.created 41, 3, 1, true, 0, true, 0, none⟩ = some r' ∧
      r.parent = r'.parent ∧
      r.child.map execv_calls = r'.child.map execv_calls ∧
      r.child.map Run.outcome = r'.child.map Run.outcome :=
  do_exec_redirect_refines_do_exec "/tmp/out.txt" 2 ["/bin/echo", "hello"]
    ⟨.created 41, 3, 1, true, 0, true, 0, none⟩ (by decide) (by decide) (by decide)

/-- The command vector of a call with exactly `count` tokens, `count` at least 1. -/
theorem argv_of_tokens (count : Nat) (args : List String) (hcount : 1 ≤ count)
    (hlen : args.length = count) :
    (args.take count).map some ++ [none] = args.map some ++ [(none : CharPtr)] ∧
      ((args.map some ++ [none]).headD (none : CharPtr)) = args[0]? ∧
      (∃ tok0 : String, args[0]? = some tok0) := by
  have ht : args.take count = args := by
    rw [← hlen]
    exact List.take_length args
  rw [ht]
  cases args with
  | nil => simp at hlen; omega
  | cons a rest => simp

/-- C9: for every count of at least 1 and every sequence of count tokens, the
child of do_exec, and the child of do_exec_redirect once open() and dup2() have
succeeded, makes exactly one execv call; its path is token 0 and its vector has
length count + 1, holds the tokens in their order in its first count entries
and NULL in the last, so that the entries after the program name are exactly
tokens 1 to count - 1. -/
theorem execv_receives_tokens (outputfile : String) (count : Nat) (args : List String)
    (w : World) (k : Nat) (hcount : 1 ≤ count) (hlen : args.length = count)
    (hfork : w.fork = .created k) :
    (∃ tok0 : String, args[0]? = some tok0) ∧
    (args.map some ++ [(none : CharPtr)]).length = count + 1 ∧
    (∀ i, i < count → (args.map some ++ [(none : CharPtr)])[i]? = (args[i]?).map some) ∧
    (args.map some ++ [(none : CharPtr)])[count]? = some none ∧
    (args.map some ++ [(none : CharPtr)]).tail = args.tail.map some ++ [none] ∧
    (∃ p c, system_run (do_exec count args) w = some ⟨p, some c⟩ ∧
      execv_calls c = [.execv args[0]? (args.map some ++ [none])]) ∧
    (w.open_ret ≠ -1 → w.dup2_ret ≠ -1 →
      ∃ p c, system_run (do_exec_redirect outputfile count args) w = some ⟨p, some c⟩ ∧
        execv_calls c = [.execv args[0]? (args.map some ++ [none])]) := by
  have hargs : count ≤ args.length := by omega
  obtain ⟨hv, hh, htok⟩ := argv_of_tokens count args hcount hlen
  refine ⟨htok, by simp [hlen], ?_, ?_, ?_, ?_, ?_⟩
  · intro i hi
    rw [List.getElem?_append_left (by simpa [hlen] using hi)]
    simp
  · rw [List.getElem?_append_right (by simp [hlen])]
    simp [hlen]
  · cases args with
    | nil => simp at hlen; omega
    | cons a rest => simp
  · obtain ⟨c, hc, hrun⟩ := system_run_do_exec count args w k hargs hfork
    rw [do_exec_child count args _ hargs rfl, hv, hh] at hc
    refine ⟨_, c, hrun, ?_⟩
    cases he : w.child_env.execv_ok <;> rw [he] at hc <;>
      simp only [Bool.false_eq_true, if_false, if_true, Option.some.injEq] at hc <;>
      subst hc <;> simp [execv_calls, Call.is_execv]
  · intro ho hd
    obtain ⟨c, hc, hrun⟩ := system_run_do_exec_redirect outputfile count args w k hargs hfork
    rw [do_exec_redirect_child_exec outputfile count args _ hargs rfl ho hd, hv, hh] at hc
    refine ⟨_, c, hrun, ?_⟩
    cases he : w.child_env.execv_ok <;> rw [he] at hc <;>
      simp only [Bool.false_eq_true, if_false, if_true, Option.some.injEq] at hc <;>
      subst hc <;> simp [execv_calls, Call.is_execv]

/-- Witness for C9: `/bin/echo hello world`. -/
theorem execv_receives_tokens_witness :
    ∃ p c, system_run (do_exec 3 ["/bin/echo", "hello", "world"])
        ⟨.created 41, 3, 1, true, 0, true, 0, some "junk"⟩ = some ⟨p, some c⟩ ∧
      execv_calls c
        = [.execv (some "/bin/echo") [some "/bin/echo", some "hello", some "world", none]] :=
  (execv_receives_tokens "/tmp/out.txt" 3 ["/bin/echo", "hello", "world"]
    ⟨.created 41, 3, 1, true, 0, true, 0, some "junk"⟩ 41 (by decide) rfl rfl).2.2.2.2.2.1

end Systemcalls

namespace Threading

/-! ## Claims on threading.c -/

/-- Reading back the address just written. -/
theorem Mem.write_same (m : Mem) (p : Ptr) (d : thread_data) : (m.write p d) p = d := by
  simp [Mem.write]

/-- C6: for every pair of results of pthread_mutex_lock and
pthread_mutex_unlock, threadfunc leaves the completion flag of the task record
true if and only if both calls return 0; when the lock fails it stops after the
first sleep and the lock attempt, with no second sleep and no unlock; on every
path it returns the pointer it was given, so the flag a joiner reads is that
flag, and the other fields and records are left as they were.  With both delays
0 and both calls succeeding the flag is true. -/
theorem threadfunc_flag (thread_param : Ptr) (m : Mem) (lock_ret unlock_ret : Int) :
    ((threadfunc thread_param m lock_ret unlock_ret).joined_flag = true
      ↔ (lock_ret = 0 ∧ unlock_ret = 0)) ∧
    (((threadfunc thread_param m lock_ret unlock_ret).mem thread_param).thread_complete_success
      = true ↔ (lock_ret = 0 ∧ unlock_ret = 0)) ∧
    (lock_ret ≠ 0 →
      (threadfunc thread_param m lock_ret unlock_ret).calls
        = [.usleep (usleep_arg (m thread_param).wait_to_obtain_ms),
            .pthread_mutex_lock (m thread_param).mutex,
            .error_log "Failed to lock mutex"]) ∧
    (lock_ret = 0 →
      (threadfunc thread_param m lock_ret unlock_ret).calls.take 4
        = [.usleep (usleep_arg (m thread_param).wait_to_obtain_ms),
            .pthread_mutex_lock (m thread_param).mutex,
            .usleep (usleep_arg (m thread_param).wait_to_release_ms),
            .pthread_mutex_unlock (m thread_param).mutex]) ∧
    (threadfunc thread_param m lock_ret unlock_ret).ret = thread_param ∧
    (∀ q, q ≠ thread_param →
      (threadfunc thread_param m lock_ret unlock_ret).mem q = m q) ∧
    ((m thread_param).wait_to_obtain_ms = 0 → (m thread_param).wait_to_release_ms = 0 →
      lock_ret = 0 → unlock_ret = 0 →
      (threadfunc thread_param m lock_ret unlock_ret).joined_flag = true ∧
      (threadfunc thread_param m lock_ret unlock_ret).calls
        = [.usleep 0, .pthread_mutex_lock (m thread_param).mutex, .usleep 0,
            .pthread_mutex_unlock (m thread_param).mutex]) := by
  unfold ThreadRun.joined_flag threadfunc
  by_cases hl : lock_ret = 0
  · by_cases hu : unlock_ret = 0
    · subst hl; subst hu
      simp only [ne_eq, not_true_eq_false, if_false, Mem.write_same, List.take, true_and,
        and_self, forall_const, IsEmpty.forall_iff, and_true, true_implies]
      refine ⟨?_, ?_⟩
      · intro q hq
        simp [Mem.write, hq]
      · intro h1 h2
        have hz : usleep_arg 0 = 0 := by decide
        rw [h1, h2, hz]
    · simp only [hl, hu, ne_eq, not_true_eq_false, not_false_eq_true, if_false, if_true,
        Mem.write_same, List.take, and_false, Bool.false_eq_true, true_and, and_true,
        IsEmpty.forall_iff, forall_const, implies_true, true_implies]
      intro q hq
      simp [Mem.write, hq]
  · simp only [hl, ne_eq, not_false_eq_true, if_true, Mem.write_same, false_and,
      Bool.false_eq_true, true_and, IsEmpty.forall_iff, forall_const, implies_true,
      true_implies, and_true]
    intro q hq
    simp [Mem.write, hq]

/-- Witness for C6: the lock attempt fails with EINVAL (22). -/
theorem threadfunc_flag_witness :
    (threadfunc 8 (fun _ => ⟨1, 0, 0, true⟩) 22 0).joined_flag = false ∧
      (threadfunc 8 (fun _ => ⟨1, 0, 0, true⟩) 22 0).calls
        = [.usleep (usleep_arg 0), .pthread_mutex_lock 1, .error_log "Failed to lock mutex"] := by
  have h := threadfunc_flag 8 (fun _ => ⟨1, 0, 0, true⟩) 22 0
  refine ⟨?_, h.2.2.1 (by decide)⟩
  have h1 := h.1
  cases hb : (threadfunc 8 (fun _ => ⟨1, 0, 0, true⟩) 22 0).joined_flag
  · rfl
  · rw [hb] at h1
    exact absurd (h1.mp rfl).1 (by decide)

/-- C7: start_thread_obtaining_mutex returns true if and only if both the
allocation of the task record and pthread_create succeed.  Whenever it calls
pthread_create, so whenever the thread is started, the record it passes holds
the mutex of the caller, the two delays supplied, and a completion flag equal
to false.  When the allocation fails, pthread_create is not called; when
pthread_create fails, the record is freed and false is returned. -/
theorem start_thread_spawn (m : Mem) (malloc_ret : Ptr) (create_ret : Int) (mutex : Ptr)
    (wait_to_obtain_ms wait_to_release_ms : Int) :
    ((start_thread_obtaining_mutex m malloc_ret create_ret mutex wait_to_obtain_ms
        wait_to_release_ms).ret = true ↔ (malloc_ret ≠ 0 ∧ create_ret = 0)) ∧
    (∀ arg, Call.pthread_create arg ∈
        (start_thread_obtaining_mutex m malloc_ret create_ret mutex wait_to_obtain_ms
          wait_to_release_ms).calls →
      arg = malloc_ret ∧
      (start_thread_obtaining_mutex m malloc_ret create_ret mutex wait_to_obtain_ms
          wait_to_release_ms).mem arg
        = { mutex := mutex, wait_to_obtain_ms := wait_to_obtain_ms,
            wait_to_release_ms := wait_to_release_ms, thread_complete_success := false }) ∧
    (malloc_ret ≠ 0 → create_ret = 0 →
      (start_thread_obtaining_mutex m malloc_ret create_ret mutex wait_to_obtain_ms
          wait_to_release_ms).calls = [.malloc, .pthread_create malloc_ret]) ∧
    (malloc_ret = 0 →
      (∀ call ∈ (start_thread_obtaining_mutex m malloc_ret create_ret mutex wait_to_obtain_ms
          wait_to_release_ms).calls, call.is_pthread_create = false) ∧
      (start_thread_obtaining_mutex m malloc_ret create_ret mutex wait_to_obtain_ms
          wait_to_release_ms).ret = false) ∧
    (malloc_ret ≠ 0 → create_ret ≠ 0 →
      Call.free malloc_ret ∈ (start_thread_obtaining_mutex m malloc_ret create_ret mutex
          wait_to_obtain_ms wait_to_release_ms).calls ∧
      (start_thread_obtaining_mutex m malloc_ret create_ret mutex wait_to_obtain_ms
          wait_to_release_ms).ret = false) := by
  unfold start_thread_obtaining_mutex
  by_cases hm : malloc_ret = 0
  · simp [hm, Call.is_pthread_create]
  · by_cases hc : create_ret = 0
    · simp [hm, hc, Mem.write_same]
    · simp [hm, hc, Mem.write_same]

/-- Witness for C7: the allocation succeeds and pthread_create fails with EAGAIN (11). -/
theorem start_thread_spawn_witness :
    Call.free 64 ∈ (start_thread_obtaining_mutex (fun _ => ⟨0, 0, 0, true⟩) 64 11 5 10 20).calls ∧
      (start_thread_obtaining_mutex (fun _ => ⟨0, 0, 0, true⟩) 64 11 5 10 20).ret = false :=
  (start_thread_spawn (fun _ => ⟨0, 0, 0, true⟩) 64 11 5 10 20).2.2.2.2 (by decide) (by decide)

/-- C10 (fails as stated): with a delay of 4294968 ms, a non-negative 32-bit
int, the product 4294968000 does not fit 32 bits and the first usleep call of
the worker is passed 704, not 4294968000. -/
theorem usleep_arg_wraps :
    (0 : Int) ≤ 4294968 ∧ (4294968 : Int) < 2147483648 ∧
      (threadfunc 8 (fun _ => ⟨1, 4294968, 0, false⟩) 0 0).calls.head? = some (.usleep 704) ∧
      usleep_arg 4294968 ≠ 4294968 * 1000 := by
  decide

/-- C10 (amended): for every non-negative 32-bit int delay `d` in milliseconds,
the int product `d * 1000` is free of overflow exactly when `d ≤ 2147483`, and
the value passed to usleep, the product reduced modulo 2^32, equals
`d * 1000` exactly when `d ≤ 4294967`.  In particular for every `d` from 0 to
2147483 the worker requests a sleep of exactly `d * 1000` microseconds, in the
first usleep call for wait_to_obtain_ms and in the second for
wait_to_release_ms. -/
theorem usleep_arg_exact (d : Int) (h0 : 0 ≤ d) (h1 : d < 2147483648) :
    (wrap_int32 (d * 1000) = d * 1000 ↔ d ≤ 2147483) ∧
    (usleep_arg d = d * 1000 ↔ d ≤ 4294967) ∧
    (d ≤ 2147483 → ∀ (p : Ptr) (m : Mem),
      ((m p).wait_to_obtain_ms = d →
        (threadfunc p m 0 0).calls[0]? = some (.usleep (d * 1000))) ∧
      ((m p).wait_to_release_ms = d →
        (threadfunc p m 0 0).calls[2]? = some (.usleep (d * 1000)))) := by
  have hw : wrap_int32 (d * 1000) = d * 1000 ↔ d ≤ 2147483 := by
    unfold wrap_int32
    omega
  have hu : usleep_arg d = d * 1000 ↔ d ≤ 4294967 := by
    unfold usleep_arg to_useconds wrap_int32
    omega
  refine ⟨hw, hu, ?_⟩
  intro hd p m
  have hx : usleep_arg d = d * 1000 := hu.mpr (by omega)
  constructor
  · intro hm
    simp [threadfunc, hm, hx]
  · intro hm
    simp [threadfunc, hm, hx]

/-- Witness for C10 (amended): a delay of 1500 ms asks for 1500000 microseconds. -/
theorem usleep_arg_exact_witness :
    (threadfunc 8 (fun _ => ⟨1, 1500, 0, false⟩) 0 0).calls[0]? = some (.usleep (1500 * 1000)) :=
  ((usleep_arg_exact 1500 (by decide) (by decide)).2.2 (by decide) 8
    (fun _ => ⟨1, 1500, 0, false⟩)).1 rfl

end Threading
